import Mathlib

/-!
# cg_mrslam: the ROS communication adapter `RosHandler`

Shallow embedding of `src/ros_utils/ros_handler.cpp`.

Conventions of the embedding.

* `R` is the carrier of the real-valued scalars (`float`, `double`, `float32`,
  `float64`).  The handler only stores and copies such values, so an assignment
  between two scalar fields is read as value preserving.  `R` is a division
  ring so that the literals `0`, `0.1` and `10^(-9)` of the source exist.
* `C` is the element type of the closure vectors, which the source only copies
  as whole vectors.
* `int` fields are `Int`; `std::vector` is `List`; fixed arrays `T[n]` are
  functions `Fin n → T` and an element assignment is `Function.update`.
* Everything the source obtains from the ROS runtime (clock readings, received
  messages, transform lookups, the node namespace) is an explicit argument.
* A `RobotMessage*` argument is its value together with the live object behind
  it, if any.  A step without defined behaviour (an index outside an array, an
  access through a pointer with no object behind it) makes the result `none`.
-/

namespace CgMrslam

/-! ## Loops and vectors -/

/-- Counting loop `for (size_t i = start; i < start + count; i++) body(i)`,
threading the loop state; `count` is the number of iterations left. -/
def forLoop {σ : Type} (body : Nat → σ → σ) : Nat → Nat → σ → σ
  | _, 0, s => s
  | i, count + 1, s => forLoop body (i + 1) count (body i s)

/-- Vector `resize(n)`: keep the first `n` elements, pad with the
value-initialised element `d` up to length `n`. -/
def resize {α : Type} (n : Nat) (d : α) (v : List α) : List α :=
  v.take n ++ List.replicate (n - v.length) d

/-- In-place update of element `i` of a vector, `v[i] = f(v[i])`. -/
def assignAt {α : Type} (f : α → α) : Nat → List α → List α
  | _, [] => []
  | 0, x :: xs => f x :: xs
  | i + 1, x :: xs => x :: assignAt f i xs

/-- Element-wise copy loop
`for (i = 0; i < src.size(); i++) dst[i] = copy(src[i], dst[i])`. -/
def copyLoop {α β : Type} (copy : α → β → β) (src : List α) (dst : List β) : List β :=
  forLoop (fun i d => match src[i]? with
    | some s => assignAt (copy s) i d
    | none => d) 0 src.length dst

/-! ## Time -/

/-- A `ros::Time`: seconds and nanoseconds. -/
structure Time where
  sec : Nat
  nsec : Nat
deriving DecidableEq, Repr

/-- Nanoseconds since the epoch of a `ros::Time`. -/
def Time.toNSec (t : Time) : Int := (t.sec : Int) * 1000000000 + (t.nsec : Int)

/-- A `std_msgs::Header` (the fields the handler touches). -/
structure Header where
  stamp : Time
  frame_id : String
deriving DecidableEq, Repr

/-! ## Internal message classes (`RobotMessage` hierarchy) -/

/-- Element of `ComboMessage::vertexVector`. -/
structure VertexData (R : Type) where
  id : Int
  estimate : Fin 3 → R
deriving DecidableEq

/-- Element of `CondensedGraphMessage::edgeVector`. -/
structure EdgeData (R : Type) where
  idfrom : Int
  idto : Int
  estimate : Fin 3 → R
  information : Fin 6 → R
deriving DecidableEq

/-- A `ComboMessage`: the members of the base class `RobotMessage` (robot id
and kind tag, read through `robotId()` and `type()`), the laser block and the
vertex sequence. -/
structure ComboMessage (R : Type) where
  robotId : Int
  type : Int
  nodeId : Int
  readings : List R
  minangle : R
  angleincrement : R
  maxrange : R
  accuracy : R
  vertexVector : List (VertexData R)
deriving DecidableEq

/-- A `CondensedGraphMessage`: the members of the base class `RobotMessage`,
the edge sequence and the closures. -/
structure CondensedGraphMessage (R C : Type) where
  robotId : Int
  type : Int
  edgeVector : List (EdgeData R)
  closures : List C
deriving DecidableEq

/-- The polymorphic `RobotMessage`: the two variants the handler casts to, and
any other subclass (for which both `dynamic_cast`s of the encoder fail). -/
inductive RobotMessage (R C : Type) where
  | combo (cmsg : ComboMessage R)
  | condensedGraph (gmsg : CondensedGraphMessage R C)
  | other (robotId : Int) (type : Int)
deriving DecidableEq

/-- Modelled from the spec: the kind tag stored by the `ComboMessage`
constructor (class declared outside `src/`); the spec fixes 4 = combo. -/
def ComboMessage.kindTag : Int := 4

/-- Modelled from the spec: the kind tag stored by the `CondensedGraphMessage`
constructor (class declared outside `src/`); the spec fixes 7 = condensed-graph. -/
def CondensedGraphMessage.kindTag : Int := 7

/-- The accessor `RobotMessage::robotId()`. -/
def RobotMessage.robotId {R C : Type} : RobotMessage R C → Int
  | .combo c => c.robotId
  | .condensedGraph g => g.robotId
  | .other r _ => r

/-- The accessor `RobotMessage::type()`. -/
def RobotMessage.type {R C : Type} : RobotMessage R C → Int
  | .combo c => c.type
  | .condensedGraph g => g.type
  | .other _ t => t

/-- Modelled from the spec: the assignment `* dst = * src` through two
`RobotMessage*`, which runs the copy assignment of the base class (declared
outside `src/`).  It copies the members the spec lists as common to all
messages, robot id and kind tag, and leaves the dynamic class and the members
of the derived class of `dst` as they were. -/
def RobotMessage.assignBase {R C : Type} (dst src : RobotMessage R C) : RobotMessage R C :=
  match dst with
  | .combo c => .combo { c with robotId := src.robotId, type := src.type }
  | .condensedGraph g => .condensedGraph { g with robotId := src.robotId, type := src.type }
  | .other _ _ => .other src.robotId src.type

/-- Modelled from the spec: `new ComboMessage(robotId)`, the object the decoder
constructs and then populates (constructor declared outside `src/`): robot id
and kind tag 4 are set, the other members are empty. -/
def ComboMessage.new {R : Type} [Zero R] (robotId : Int) : ComboMessage R :=
  { robotId := robotId, type := ComboMessage.kindTag, nodeId := 0, readings := [], minangle := 0,
    angleincrement := 0, maxrange := 0, accuracy := 0, vertexVector := [] }

/-- Modelled from the spec: `new CondensedGraphMessage(robotId)`, the object the
decoder constructs and then populates (constructor declared outside `src/`):
robot id and kind tag 7 are set, the other members are empty. -/
def CondensedGraphMessage.new {R C : Type} (robotId : Int) : CondensedGraphMessage R C :=
  { robotId := robotId, type := CondensedGraphMessage.kindTag, edgeVector := [], closures := [] }

/-- A value-initialised `VertexData`, as appended by `resize`. -/
def VertexData.zero {R : Type} [Zero R] : VertexData R := { id := 0, estimate := fun _ => 0 }

/-- A value-initialised `EdgeData`, as appended by `resize`. -/
def EdgeData.zero {R : Type} [Zero R] : EdgeData R :=
  { idfrom := 0, idto := 0, estimate := fun _ => 0, information := fun _ => 0 }

/-! ## Wire messages (package `cg_mrslam`) and sensor messages -/

/-- Element of `cg_mrslam::SLAM::vertices`. -/
structure cg_mrslam.Vertex (R : Type) where
  id : Int
  estimate : Fin 3 → R
deriving DecidableEq

/-- Element of `cg_mrslam::SLAM::edges`. -/
structure cg_mrslam.Edge (R : Type) where
  idFrom : Int
  idTo : Int
  estimate : Fin 3 → R
  information : Fin 6 → R
deriving DecidableEq

/-- The wire laser block `cg_mrslam::RobotLaser`. -/
structure cg_mrslam.RobotLaser (R : Type) where
  nodeId : Int
  readings : List R
  minAngle : R
  angleInc : R
  maxRange : R
  accuracy : R
deriving DecidableEq

/-- The wire message `cg_mrslam::SLAM`. -/
structure cg_mrslam.SLAM (R C : Type) where
  header : Header
  robotId : Int
  type : Int
  laser : cg_mrslam.RobotLaser R
  vertices : List (cg_mrslam.Vertex R)
  edges : List (cg_mrslam.Edge R)
  closures : List C
deriving DecidableEq

/-- The liveness message `cg_mrslam::Ping`. -/
structure cg_mrslam.Ping where
  header : Header
  robotFrom : Int
  robotTo : Int
deriving DecidableEq, Repr

/-- A value-initialised wire vertex, as appended by `resize`. -/
def cg_mrslam.Vertex.zero {R : Type} [Zero R] : cg_mrslam.Vertex R :=
  { id := 0, estimate := fun _ => 0 }

/-- A value-initialised wire edge, as appended by `resize`. -/
def cg_mrslam.Edge.zero {R : Type} [Zero R] : cg_mrslam.Edge R :=
  { idFrom := 0, idTo := 0, estimate := fun _ => 0, information := fun _ => 0 }

/-- The default-constructed wire message, the content of every slot of
`new cg_mrslam::SLAM[nRobots]`: the generated message constructor
value-initialises each field, so the kind tag is 0. -/
def cg_mrslam.SLAM.zero {R C : Type} [Zero R] : cg_mrslam.SLAM R C :=
  { header := { stamp := { sec := 0, nsec := 0 }, frame_id := "" }, robotId := 0, type := 0,
    laser := { nodeId := 0, readings := [], minAngle := 0, angleInc := 0, maxRange := 0,
               accuracy := 0 },
    vertices := [], edges := [], closures := [] }

/-- A `geometry_msgs::Quaternion`. -/
structure Quaternion (R : Type) where
  x : R
  y : R
  z : R
  w : R
deriving DecidableEq

/-- A `geometry_msgs::Point`. -/
structure Point (R : Type) where
  x : R
  y : R
  z : R
deriving DecidableEq

/-- A `nav_msgs::Odometry` sample: `pose.pose.position` and
`pose.pose.orientation`. -/
structure nav_msgs.Odometry (R : Type) where
  position : Point R
  orientation : Quaternion R
deriving DecidableEq

/-- A `sensor_msgs::LaserScan` (the fields the handler reads). -/
structure sensor_msgs.LaserScan (R : Type) where
  header : Header
  angle_min : R
  angle_increment : R
  range_max : R
  ranges : List R
deriving DecidableEq

/-- A `tf::StampedTransform`: origin and rotation. -/
structure StampedTransform (R : Type) where
  origin : Point R
  rotation : Quaternion R
deriving DecidableEq

/-! ## Geometry and laser records (g2o) -/

/-- A planar rigid transform `SE2`: translation and rotation angle. -/
structure SE2 (R : Type) where
  x : R
  y : R
  theta : R
deriving DecidableEq

/-- The setter `SE2::setTranslation(Vector2d(x, y))`. -/
def SE2.setTranslation {R : Type} (p : SE2 R) (x y : R) : SE2 R := { p with x := x, y := y }

/-- The setter `SE2::setRotation(Rotation2Dd(angle))`. -/
def SE2.setRotation {R : Type} (p : SE2 R) (angle : R) : SE2 R := { p with theta := angle }

/-- The seven-argument `LaserParameters` constructor, arguments in call order,
and the public member `laserPose`. -/
structure LaserParameters (R : Type) where
  type : Int
  beams : Nat
  firstBeamAngle : R
  angularStep : R
  maxRange : R
  accuracy : R
  remissionMode : Int
  laserPose : SE2 R
deriving DecidableEq

/-- A `RobotLaser` record, as filled through its setters. -/
structure RobotLaser (R : Type) where
  laserParams : LaserParameters R
  odomPose : SE2 R
  ranges : List R
  timestamp : R
  loggerTimestamp : R
  hostname : String
deriving DecidableEq

/-! ## Strings -/

/-- Search of `std::string::find`: the first position at or after `pos` where
`pat` occurs in the remaining characters; `none` is `npos`. -/
def findFrom (pat : List Char) : List Char → Nat → Option Nat
  | [], pos => if pat = [] then some pos else none
  | c :: cs, pos => if pat.isPrefixOf (c :: cs) then some pos else findFrom pat cs (pos + 1)

/-- The call `s.find(pat)`. -/
def find (s pat : String) : Option Nat := findFrom pat.data s.data 0

/-- The call `s.substr(0, len)`, where `len = none` is `npos` (up to the end). -/
def substr0 (s : String) : Option Nat → String
  | none => s
  | some len => String.mk (s.data.take len)

/-- Lines 54-56: the root namespace, `fullns.substr(0, fullns.find("_"))`. -/
def rootNamespace (fullns : String) : String :=
  let delimiter := "_"
  substr0 fullns (find fullns delimiter)

/-- The stream `rootns << "_" << r << suffix` of `init` and `run`. -/
def topicName (rootns : String) (r : Nat) (suffix : String) : String :=
  rootns ++ "_" ++ toString r ++ suffix

/-! ## The handler state -/

/-- The enumeration `TypeExperiment`. -/
inductive TypeExperiment where
  | SIM
  | BAG
  | REAL
deriving DecidableEq, Repr

/-- The callback a subscription is bound to; the ground-truth and peer-message
callbacks carry the array slot whose address was bound. -/
inductive Callback where
  | odomCallback
  | scanCallback
  | pingCallback
  | groundTruthCallback (slot : Nat)
  | robotCallback (slot : Nat)
deriving DecidableEq, Repr

/-- An open subscription: topic, queue size, callback. -/
structure Subscriber where
  topic : String
  queueSize : Nat
  callback : Callback
deriving DecidableEq, Repr

/-- An advertised topic. -/
structure Publisher where
  topic : String
  queueSize : Nat
deriving DecidableEq, Repr

/-- The members of `RosHandler`.  A default-constructed `ros::Subscriber` or
`ros::Publisher` is `none`. -/
structure RosHandler (R C : Type) where
  idRobot : Int
  nRobots : Nat
  typeExperiment : TypeExperiment
  gtPoses : List (SE2 R)
  robotMsg : List (cg_mrslam.SLAM R C)
  msgEmpty : Bool
  subgt : List (Option Subscriber)
  subRobotMsg : List (Option Subscriber)
  timeLastPing : List Time
  odomTopic : String
  scanTopic : String
  baseFrameId : String
  trobotlaser : SE2 R
  useOdom : Bool
  useLaser : Bool
  rootns : String
  odom : nav_msgs.Odometry R
  laserscan : sensor_msgs.LaserScan R
  laserMaxRange : R
  subOdom : Option Subscriber
  subScan : Option Subscriber
  subPing : Option Subscriber
  pubRecv : Option Publisher
  pubSent : Option Publisher
  pubPing : Option Publisher

/-- Lines 31-60: the constructor.  `fullns` is what
`ros::this_node::getNamespace()` returns.  Members the constructor does not
mention are default-constructed (the scalar `_laserMaxRange`, which the
constructor leaves unset, is shown as 0). -/
def RosHandler.new {R C : Type} [Zero R] (fullns : String) (idRobot : Int) (nRobots : Nat)
    (typeExperiment : TypeExperiment) : RosHandler R C :=
  { idRobot := idRobot
    nRobots := nRobots
    typeExperiment := typeExperiment
    gtPoses := List.replicate nRobots (SE2.mk 0 0 0)
    robotMsg := List.replicate nRobots cg_mrslam.SLAM.zero
    msgEmpty := true
    subgt := List.replicate nRobots none
    subRobotMsg := List.replicate nRobots none
    timeLastPing := List.replicate nRobots (Time.mk 0 0)
    odomTopic := "odom"
    scanTopic := "base_scan"
    baseFrameId := "base_link"
    trobotlaser := SE2.mk 0 0 0
    useOdom := false
    useLaser := false
    rootns := rootNamespace fullns
    odom := { position := Point.mk 0 0 0, orientation := Quaternion.mk 0 0 0 0 }
    laserscan := { header := { stamp := Time.mk 0 0, frame_id := "" }, angle_min := 0,
                   angle_increment := 0, range_max := 0, ranges := [] }
    laserMaxRange := 0
    subOdom := none
    subScan := none
    subPing := none
    pubRecv := none
    pubSent := none
    pubPing := none }

/-! ## Callbacks -/

/-- Lines 62-67: `pingCallback`.  `now` is the reading of `ros::Time::now()`.
The sender index comes off the wire; an index outside `_timeLastPing` has no
defined behaviour and is reported as `none`. -/
def RosHandler.pingCallback {R C : Type} (self : RosHandler R C) (msg : cg_mrslam.Ping)
    (now : Time) : Option (RosHandler R C) :=
  let robot := msg.robotFrom
  if 0 ≤ robot ∧ robot.toNat < self.timeLastPing.length then
    some { self with timeLastPing := assignAt (fun _ => now) robot.toNat self.timeLastPing }
  else none

/-- Lines 69-73: `groundTruthCallback`, bound to the pose `_gtPoses[slot]`. -/
def RosHandler.groundTruthCallback {R C : Type} (getYaw : Quaternion R → R)
    (self : RosHandler R C) (msg : nav_msgs.Odometry R) (slot : Nat) : RosHandler R C :=
  let update := fun (gtpose : SE2 R) =>
    (gtpose.setTranslation msg.position.x msg.position.y).setRotation (getYaw msg.orientation)
  { self with gtPoses := assignAt update slot self.gtPoses }

/-- Lines 75-78: `odomCallback`. -/
def RosHandler.odomCallback {R C : Type} (self : RosHandler R C) (msg : nav_msgs.Odometry R) :
    RosHandler R C :=
  { self with odom := msg }

/-- Lines 80-83: `scanCallback`. -/
def RosHandler.scanCallback {R C : Type} (self : RosHandler R C)
    (msg : sensor_msgs.LaserScan R) : RosHandler R C :=
  { self with laserscan := msg }

/-- Lines 85-89: `robotCallback`, bound to the slot `_robotMsg[slot]`: the
message overwrites the slot and the handler-wide flag `_msgEmpty` is cleared. -/
def RosHandler.robotCallback {R C : Type} (self : RosHandler R C) (msg : cg_mrslam.SLAM R C)
    (slot : Nat) : RosHandler R C :=
  let self := { self with robotMsg := assignAt (fun _ => msg) slot self.robotMsg }
  { self with msgEmpty := false }

/-! ## Odometry and laser snapshot -/

/-- Lines 91-96: `getOdom`.  `getYaw` is `tf::getYaw`. -/
def RosHandler.getOdom {R C : Type} [Zero R] (getYaw : Quaternion R → R)
    (self : RosHandler R C) : SE2 R :=
  let odomSE2 : SE2 R := SE2.mk 0 0 0
  let odomSE2 := odomSE2.setTranslation self.odom.position.x self.odom.position.y
  let odomSE2 := odomSE2.setRotation (getYaw self.odom.orientation)
  odomSE2

/-- Lines 98-116: `getLaser`. -/
def RosHandler.getLaser {R C : Type} [DivisionRing R] (getYaw : Quaternion R → R)
    (self : RosHandler R C) : RobotLaser R :=
  let lparams : LaserParameters R :=
    { type := 0, beams := self.laserscan.ranges.length, firstBeamAngle := self.laserscan.angle_min,
      angularStep := self.laserscan.angle_increment, maxRange := self.laserscan.range_max,
      accuracy := 0.1, remissionMode := 0, laserPose := SE2.mk 0 0 0 }
  let lparams := { lparams with laserPose := self.trobotlaser }
  let ranges : List R := List.replicate self.laserscan.ranges.length 0
  let ranges := copyLoop (fun r _ => r) self.laserscan.ranges ranges
  let timestamp : R := (self.laserscan.header.stamp.sec : R)
    + (self.laserscan.header.stamp.nsec : R) * (10 : R) ^ (-9 : Int)
  { laserParams := lparams
    odomPose := self.getOdom getYaw
    ranges := ranges
    timestamp := timestamp
    loggerTimestamp := timestamp
    hostname := "hostname" }

/-! ## Message codec: encoding -/

/-- Body of the loop of lines 231-236 for one index: the four assignments. -/
def encodeVertex {R : Type} (v : VertexData R) (d : cg_mrslam.Vertex R) : cg_mrslam.Vertex R :=
  let d := { d with id := v.id }
  let d := { d with estimate := Function.update d.estimate 0 (v.estimate 0) }
  let d := { d with estimate := Function.update d.estimate 1 (v.estimate 1) }
  let d := { d with estimate := Function.update d.estimate 2 (v.estimate 2) }
  d

/-- Body of the loop of lines 246-258 for one index: the eleven assignments. -/
def encodeEdge {R : Type} (e : EdgeData R) (d : cg_mrslam.Edge R) : cg_mrslam.Edge R :=
  let d := { d with idFrom := e.idfrom }
  let d := { d with idTo := e.idto }
  let d := { d with estimate := Function.update d.estimate 0 (e.estimate 0) }
  let d := { d with estimate := Function.update d.estimate 1 (e.estimate 1) }
  let d := { d with estimate := Function.update d.estimate 2 (e.estimate 2) }
  let d := { d with information := Function.update d.information 0 (e.information 0) }
  let d := { d with information := Function.update d.information 1 (e.information 1) }
  let d := { d with information := Function.update d.information 2 (e.information 2) }
  let d := { d with information := Function.update d.information 3 (e.information 3) }
  let d := { d with information := Function.update d.information 4 (e.information 4) }
  let d := { d with information := Function.update d.information 5 (e.information 5) }
  d

/-- Lines 215-237: `createComboMsg`; `dslamMsg` is the in-out reference
argument and `now` the reading of `ros::Time::now()`. -/
def createComboMsg {R C : Type} [Zero R] (now : Time) (cmsg : ComboMessage R)
    (dslamMsg : cg_mrslam.SLAM R C) : cg_mrslam.SLAM R C :=
  let dslamMsg := { dslamMsg with header := { dslamMsg.header with stamp := now } }
  let dslamMsg := { dslamMsg with robotId := cmsg.robotId }
  let dslamMsg := { dslamMsg with type := cmsg.type }
  let laser : cg_mrslam.RobotLaser R :=
    { nodeId := cmsg.nodeId, readings := cmsg.readings, minAngle := cmsg.minangle,
      angleInc := cmsg.angleincrement, maxRange := cmsg.maxrange, accuracy := cmsg.accuracy }
  let dslamMsg := { dslamMsg with laser := laser }
  let dslamMsg := { dslamMsg with
    vertices := resize cmsg.vertexVector.length cg_mrslam.Vertex.zero dslamMsg.vertices }
  { dslamMsg with vertices := copyLoop encodeVertex cmsg.vertexVector dslamMsg.vertices }

/-- Lines 239-261: `createCondensedGraphMsg`. -/
def createCondensedGraphMsg {R C : Type} [Zero R] (now : Time) (gmsg : CondensedGraphMessage R C)
    (dslamMsg : cg_mrslam.SLAM R C) : cg_mrslam.SLAM R C :=
  let dslamMsg := { dslamMsg with header := { dslamMsg.header with stamp := now } }
  let dslamMsg := { dslamMsg with robotId := gmsg.robotId }
  let dslamMsg := { dslamMsg with type := gmsg.type }
  let dslamMsg := { dslamMsg with
    edges := resize gmsg.edgeVector.length cg_mrslam.Edge.zero dslamMsg.edges }
  let dslamMsg := { dslamMsg with edges := copyLoop encodeEdge gmsg.edgeVector dslamMsg.edges }
  { dslamMsg with closures := gmsg.closures }

/-- Lines 263-272: `createDSlamMsg`, the dispatch on the dynamic type; a message
of neither class leaves `dslamMsg` untouched. -/
def createDSlamMsg {R C : Type} [Zero R] (now : Time) (msg : RobotMessage R C)
    (dslamMsg : cg_mrslam.SLAM R C) : cg_mrslam.SLAM R C :=
  match msg with
  | .combo cmsg => createComboMsg now cmsg dslamMsg
  | .condensedGraph gmsg => createCondensedGraphMsg now gmsg dslamMsg
  | .other _ _ => dslamMsg

/-- Lines 324-329 and 331-336: the wire message handed to `publish` by
`publishSentMsg` and `publishReceivedMsg`, encoded into a fresh `dslamMsg`. -/
def publishedMsg {R C : Type} [Zero R] (now : Time) (msg : RobotMessage R C) :
    cg_mrslam.SLAM R C :=
  createDSlamMsg now msg cg_mrslam.SLAM.zero

/-- Lines 204-213: the ping handed to `publish` by `publishPing`. -/
def RosHandler.publishPing {R C : Type} (self : RosHandler R C) (idRobotFrom : Int)
    (now : Time) : cg_mrslam.Ping :=
  { header := { stamp := now, frame_id := "" }, robotFrom := idRobotFrom, robotTo := self.idRobot }

/-! ## Message codec: decoding -/

/-- A value of type `RobotMessage*`. -/
inductive RobotMessagePtr where
  | nullptr
  | addr (a : Nat)
deriving DecidableEq, Repr

/-- Body of the loop of lines 282-294 for one index. -/
def decodeEdge {R : Type} (e : cg_mrslam.Edge R) (d : EdgeData R) : EdgeData R :=
  let d := { d with idfrom := e.idFrom }
  let d := { d with idto := e.idTo }
  let d := { d with estimate := Function.update d.estimate 0 (e.estimate 0) }
  let d := { d with estimate := Function.update d.estimate 1 (e.estimate 1) }
  let d := { d with estimate := Function.update d.estimate 2 (e.estimate 2) }
  let d := { d with information := Function.update d.information 0 (e.information 0) }
  let d := { d with information := Function.update d.information 1 (e.information 1) }
  let d := { d with information := Function.update d.information 2 (e.information 2) }
  let d := { d with information := Function.update d.information 3 (e.information 3) }
  let d := { d with information := Function.update d.information 4 (e.information 4) }
  let d := { d with information := Function.update d.information 5 (e.information 5) }
  d

/-- Body of the loop of lines 307-312 for one index. -/
def decodeVertex {R : Type} (v : cg_mrslam.Vertex R) (d : VertexData R) : VertexData R :=
  let d := { d with id := v.id }
  let d := { d with estimate := Function.update d.estimate 0 (v.estimate 0) }
  let d := { d with estimate := Function.update d.estimate 1 (v.estimate 1) }
  let d := { d with estimate := Function.update d.estimate 2 (v.estimate 2) }
  d

/-- What one call of `createRobotMsg` leaves behind when it returns.
`robotMsg` is the final value of the pointer parameter, which is declared
`RobotMessage* robotMsg` and so is a copy owned by the callee.  `pointee` is the
object behind the pointer the caller passed, after the call: the only message
state the caller can observe.  `leaked` is the object allocated with `new`
(`gmsg` or `cmsg`); its address lives in a local only and is dropped at return,
so no caller can reach it. -/
structure CreateRobotMsgResult (R C : Type) where
  robotMsg : RobotMessagePtr
  pointee : Option (RobotMessage R C)
  leaked : Option (RobotMessage R C)
deriving DecidableEq

/-- Lines 274-322: `createRobotMsg`, a method reading the member `_msgEmpty`.
`robotMsg` is the pointer argument and `pointee` the live message object it
points to, `none` for a null, uninitialised or dangling pointer.  On the tag 7
and tag 4 paths the call reads the object behind the pointer (`dynamic_cast`,
lines 278 and 298) and assigns through it (`* robotMsg = * gmsg`, lines 296 and
313); without an object behind the pointer that has no defined behaviour and is
reported as `none`.  The assignment goes through `RobotMessage*`, so it is the
base-class assignment `assignBase`. -/
def RosHandler.createRobotMsg {R C : Type} [Zero R] (self : RosHandler R C)
    (slamMsg : cg_mrslam.SLAM R C) (robotMsg : RobotMessagePtr)
    (pointee : Option (RobotMessage R C)) : Option (CreateRobotMsgResult R C) :=
  if !self.msgEmpty then
    if slamMsg.type = 7 then
      match robotMsg, pointee with
      | .addr _, some target =>
        let gmsg : CondensedGraphMessage R C := CondensedGraphMessage.new slamMsg.robotId
        let gmsg := { gmsg with
          edgeVector := resize slamMsg.edges.length EdgeData.zero gmsg.edgeVector }
        let gmsg := { gmsg with edgeVector := copyLoop decodeEdge slamMsg.edges gmsg.edgeVector }
        let gmsg := { gmsg with closures := slamMsg.closures }
        some { robotMsg := robotMsg
               pointee := some (target.assignBase (.condensedGraph gmsg))
               leaked := some (.condensedGraph gmsg) }
      | _, _ => none
    else if slamMsg.type = 4 then
      match robotMsg, pointee with
      | .addr _, some target =>
        let cmsg : ComboMessage R := ComboMessage.new slamMsg.robotId
        let cmsg := { cmsg with nodeId := slamMsg.laser.nodeId }
        let cmsg := { cmsg with readings := slamMsg.laser.readings }
        let cmsg := { cmsg with minangle := slamMsg.laser.minAngle }
        let cmsg := { cmsg with angleincrement := slamMsg.laser.angleInc }
        let cmsg := { cmsg with maxrange := slamMsg.laser.maxRange }
        let cmsg := { cmsg with accuracy := slamMsg.laser.accuracy }
        let cmsg := { cmsg with
          vertexVector := resize slamMsg.vertices.length VertexData.zero cmsg.vertexVector }
        let cmsg := { cmsg with
          vertexVector := copyLoop decodeVertex slamMsg.vertices cmsg.vertexVector }
        some { robotMsg := robotMsg
               pointee := some (target.assignBase (.combo cmsg))
               leaked := some (.combo cmsg) }
      | _, _ => none
    else
      some { robotMsg := .nullptr, pointee := pointee, leaked := none }
  else
    some { robotMsg := .nullptr, pointee := pointee, leaked := none }

/-- Lines 118-123: `getRobotMsg`.  The local `RobotMessage* robotMsg` is
declared without initialiser; `robotMsg` below is the value it happens to hold,
and no message object stands behind it.  It is passed to `createRobotMsg` by
value and returned afterwards, so the pointer `createRobotMsg` ends with never
reaches the caller.  The result is `none` where the call has no defined
behaviour: an index outside `_robotMsg`, or a decode that goes through the
uninitialised pointer. -/
def RosHandler.getRobotMsg {R C : Type} [Zero R] (self : RosHandler R C) (robot : Int)
    (robotMsg : RobotMessagePtr) : Option RobotMessagePtr :=
  if 0 ≤ robot then
    match self.robotMsg[robot.toNat]? with
    | none => none
    | some slamMsg =>
      match self.createRobotMsg slamMsg robotMsg none with
      | none => none
      | some _ => some robotMsg
  else none

/-! ## Start-up and topology -/

/-- What the ROS runtime delivers to one call of `init`: the first odometry and
scan samples, the outcome of each successive transform lookup the call might
make (`none` is a thrown `tf::TransformException`), and the first ground-truth
sample of each robot. -/
structure InitInputs (R : Type) where
  odommsg : nav_msgs.Odometry R
  lasermsg : sensor_msgs.LaserScan R
  lookup : Nat → Option (StampedTransform R)
  gtmsg : Nat → nav_msgs.Odometry R

/-- The handler after `init` returned, with the number of transform lookups the
call made and the number of one-second sleeps. -/
structure InitResult (R C : Type) where
  handler : RosHandler R C
  lookups : Nat
  sleeps : Nat

/-- Lines 125-168: `init`. -/
def RosHandler.init {R C : Type} (getYaw : Quaternion R → R) (self : RosHandler R C)
    (inp : InitInputs R) : InitResult R C :=
  let self := if self.useOdom then { self with odom := inp.odommsg } else self
  let res : InitResult R C :=
    if self.useLaser then
      let self := { self with laserscan := inp.lasermsg }
      let self := { self with laserMaxRange := self.laserscan.range_max }
      match inp.lookup 0 with
      | some laserTransform =>
        let pose := SE2.mk laserTransform.origin.x laserTransform.origin.y
          (getYaw laserTransform.rotation)
        { handler := { self with trobotlaser := pose }, lookups := 1, sleeps := 0 }
      | none => { handler := self, lookups := 1, sleeps := 1 }
    else { handler := self, lookups := 0, sleeps := 0 }
  let self := res.handler
  let self :=
    if self.typeExperiment = TypeExperiment.SIM then
      let body := fun (r : Nat) (gt : List (SE2 R)) =>
        let gtmsg := inp.gtmsg r
        assignAt (fun _ => SE2.mk gtmsg.position.x gtmsg.position.y (getYaw gtmsg.orientation))
          r gt
      { self with gtPoses := forLoop body 0 self.nRobots self.gtPoses }
    else self
  { res with handler := self }

/-- Lines 170-201: `run`. -/
def RosHandler.run {R C : Type} (self : RosHandler R C) : RosHandler R C :=
  let self :=
    if self.useOdom then
      { self with subOdom := some (Subscriber.mk self.odomTopic 1 Callback.odomCallback) }
    else self
  let self :=
    if self.useLaser then
      { self with subScan := some (Subscriber.mk self.scanTopic 1 Callback.scanCallback) }
    else self
  let self :=
    if self.typeExperiment = TypeExperiment.BAG then
      { self with subPing := some (Subscriber.mk "ping_msgs" 1 Callback.pingCallback) }
    else if self.typeExperiment = TypeExperiment.SIM then
      let body := fun (r : Nat) (sub : List (Option Subscriber)) =>
        let nametopic := topicName self.rootns r "/base_pose_ground_truth"
        assignAt (fun _ => some (Subscriber.mk nametopic 1 (Callback.groundTruthCallback r)))
          r sub
      { self with subgt := forLoop body 0 self.nRobots self.subgt }
    else self
  let self := { self with pubRecv := some (Publisher.mk "recv_msgs" 1) }
  let self := { self with pubSent := some (Publisher.mk "sent_msgs" 1) }
  let self := { self with pubPing := some (Publisher.mk "ping_msgs" 1) }
  let body := fun (r : Nat) (sub : List (Option Subscriber)) =>
    if (r : Int) ≠ self.idRobot then
      let robotopic := topicName self.rootns r "/sent_msgs"
      assignAt (fun _ => some (Subscriber.mk robotopic 10 (Callback.robotCallback r))) r sub
    else sub
  { self with subRobotMsg := forLoop body 0 self.nRobots self.subRobotMsg }

/-- The topics of the peer subscriptions held in `_subRobotMsg`, in slot order. -/
def RosHandler.peerTopics {R C : Type} (self : RosHandler R C) : List String :=
  self.subRobotMsg.filterMap (fun sub => sub.map Subscriber.topic)

/-! ## Observers used by the statements -/

/-- The not-yet-received flag that guards the slot of peer `s`.  The handler
has the single member `_msgEmpty`, consulted by `createRobotMsg` for whichever
slot it decodes, so the flag of every peer is that member. -/
def RosHandler.unseen {R C : Type} (self : RosHandler R C) (_s : Nat) : Bool := self.msgEmpty

/-- Modelled from the spec: `timeSincePing(r)` measured at clock reading `now`,
the time elapsed since the last-seen time of `r` (the accessor lives in the
header, outside `src/`); in nanoseconds. -/
def RosHandler.timeSincePing {R C : Type} (self : RosHandler R C) (r : Nat) (now : Time) :
    Option Int :=
  (self.timeLastPing[r]?).map (fun last => now.toNSec - last.toNSec)

/-- An inbound event: one callback invocation with its message and, for a ping,
the clock reading. -/
inductive Event (R C : Type) where
  | ping (msg : cg_mrslam.Ping) (now : Time)
  | groundTruth (msg : nav_msgs.Odometry R) (slot : Nat)
  | odom (msg : nav_msgs.Odometry R)
  | scan (msg : sensor_msgs.LaserScan R)
  | robot (msg : cg_mrslam.SLAM R C) (slot : Nat)

/-- Deliver one event to its callback; a ping with an index outside the array
leaves no defined state and is dropped from the trace. -/
def RosHandler.deliver {R C : Type} (getYaw : Quaternion R → R) (self : RosHandler R C) :
    Event R C → RosHandler R C
  | .ping msg now => (self.pingCallback msg now).getD self
  | .groundTruth msg slot => self.groundTruthCallback getYaw msg slot
  | .odom msg => self.odomCallback msg
  | .scan msg => self.scanCallback msg
  | .robot msg slot => self.robotCallback msg slot

/-- Deliver a sequence of events in order. -/
def RosHandler.deliverAll {R C : Type} (getYaw : Quaternion R → R) (self : RosHandler R C)
    (evs : List (Event R C)) : RosHandler R C :=
  evs.foldl (RosHandler.deliver getYaw) self

/-- Whether an event is a peer message delivered to slot `r`. -/
def Event.isRobotAt {R C : Type} (r : Nat) : Event R C → Bool
  | .robot _ slot => slot == r
  | _ => false

/-- Whether an event is a peer message, from whichever peer. -/
def Event.isRobot {R C : Type} : Event R C → Bool
  | .robot _ _ => true
  | _ => false

/-! ## Concrete handlers and inputs used as examples -/

/-- A fresh handler of robot 0 of 3 in namespace "/robot_0" (log replay). -/
def freshHandler : RosHandler Int Int := RosHandler.new "/robot_0" 0 3 TypeExperiment.BAG

/-- The fresh handler with laser use switched on (the member `_useLaser`). -/
def laserHandler : RosHandler Int Int := { freshHandler with useLaser := true }

/-- A transform with origin (1, 2, 0) and rotation (0, 0, 3, 0). -/
def sampleTransform : StampedTransform Int :=
  { origin := Point.mk 1 2 0, rotation := Quaternion.mk 0 0 3 0 }

/-- A stand-in for `tf::getYaw` on integer samples: the z component. -/
def sampleYaw (q : Quaternion Int) : Int := q.z

/-- A scan with three readings. -/
def sampleScan : sensor_msgs.LaserScan Int :=
  { header := { stamp := Time.mk 5 0, frame_id := "laser" }, angle_min := -1,
    angle_increment := 1, range_max := 30, ranges := [7, 8, 9] }

/-- Start-up inputs whose first transform lookup throws and whose every later
lookup would succeed with `sampleTransform`. -/
def failThenSucceed : InitInputs Int :=
  { odommsg := { position := Point.mk 0 0 0, orientation := Quaternion.mk 0 0 0 1 }
    lasermsg := sampleScan
    lookup := fun attempt => if attempt = 0 then none else some sampleTransform
    gtmsg := fun _ => { position := Point.mk 0 0 0, orientation := Quaternion.mk 0 0 0 1 } }

/-- Start-up inputs whose transform lookup succeeds at once. -/
def succeedAtOnce : InitInputs Int :=
  { failThenSucceed with lookup := fun _ => some sampleTransform }

/-- A clock reading: 10 s. -/
def sampleClock : Time := Time.mk 10 0

/-- A valid ComboMessage of robot 1 with two readings and one vertex. -/
def sampleCombo : ComboMessage Int :=
  { robotId := 1, type := ComboMessage.kindTag, nodeId := 5, readings := [7, 8], minangle := -1,
    angleincrement := 1, maxrange := 30, accuracy := 2,
    vertexVector := [VertexData.mk 3 ![1, 2, 3]] }

/-- A valid CondensedGraphMessage of robot 1 with one edge whose information
entries are 1 to 6 and one closure. -/
def sampleGraph : CondensedGraphMessage Int Int :=
  { robotId := 1, type := CondensedGraphMessage.kindTag,
    edgeVector := [EdgeData.mk 3 4 ![10, 20, 30] ![1, 2, 3, 4, 5, 6]], closures := [9] }

/-- The wire message `publishSentMsg` sends for `sampleCombo`. -/
def sampleComboWire : cg_mrslam.SLAM Int Int :=
  publishedMsg sampleClock (RobotMessage.combo sampleCombo)

/-- The wire message `publishSentMsg` sends for `sampleGraph`. -/
def sampleGraphWire : cg_mrslam.SLAM Int Int :=
  publishedMsg sampleClock (RobotMessage.condensedGraph sampleGraph)

/-- The three-robot handler after it received `sampleComboWire` from peer 1. -/
def comboReceiver : RosHandler Int Int := freshHandler.robotCallback sampleComboWire 1

/-- The three-robot handler after it received `sampleGraphWire` from peer 1. -/
def graphReceiver : RosHandler Int Int := freshHandler.robotCallback sampleGraphWire 1

/-- A wire message of robot 2 with tag 7 and no edges. -/
def tagSevenWire : cg_mrslam.SLAM Int Int := { cg_mrslam.SLAM.zero with robotId := 2, type := 7 }

/-- A wire message of robot 2 with tag 4 and an empty laser block. -/
def tagFourWire : cg_mrslam.SLAM Int Int := { cg_mrslam.SLAM.zero with robotId := 2, type := 4 }

/-- A wire message of robot 2 with the unknown tag 9. -/
def tagNineWire : cg_mrslam.SLAM Int Int := { cg_mrslam.SLAM.zero with robotId := 2, type := 9 }

/-! ## Field-wise conversions used to state the codec results -/

/-- The wire vertex carrying the fields of an internal vertex. -/
def VertexData.toWire {R : Type} (v : VertexData R) : cg_mrslam.Vertex R :=
  { id := v.id, estimate := v.estimate }

/-- The wire edge carrying the fields of an internal edge. -/
def EdgeData.toWire {R : Type} (e : EdgeData R) : cg_mrslam.Edge R :=
  { idFrom := e.idfrom, idTo := e.idto, estimate := e.estimate, information := e.information }

/-- The internal vertex carrying the fields of a wire vertex. -/
def cg_mrslam.Vertex.toData {R : Type} (v : cg_mrslam.Vertex R) : VertexData R :=
  { id := v.id, estimate := v.estimate }

/-- The internal edge carrying the fields of a wire edge. -/
def cg_mrslam.Edge.toData {R : Type} (e : cg_mrslam.Edge R) : EdgeData R :=
  { idfrom := e.idFrom, idto := e.idTo, estimate := e.estimate, information := e.information }

/-! ## Lemmas on loops and vectors -/

theorem assignAt_length {α : Type} (f : α → α) (i : Nat) (v : List α) :
    (assignAt f i v).length = v.length := by
  induction v generalizing i with
  | nil => cases i <;> rfl
  | cons x xs ih =>
    cases i with
    | zero => rfl
    | succ i => simp [assignAt, ih]

theorem getElem?_assignAt {α : Type} (f : α → α) (i j : Nat) (v : List α) :
    (assignAt f i v)[j]? = if j = i then (v[j]?).map f else v[j]? := by
  induction v generalizing i j with
  | nil => cases i <;> simp [assignAt]
  | cons x xs ih =>
    cases i with
    | zero =>
      cases j with
      | zero => simp [assignAt]
      | succ j => simp [assignAt]
    | succ i =>
      cases j with
      | zero => simp [assignAt]
      | succ j => simp [assignAt, ih]

theorem resize_length {α : Type} (n : Nat) (d : α) (v : List α) :
    (resize n d v).length = n := by
  simp [resize]
  omega

theorem forLoop_length {α : Type} (body : Nat → List α → List α)
    (hbody : ∀ i v, (body i v).length = v.length) (i count : Nat) (v : List α) :
    (forLoop body i count v).length = v.length := by
  induction count generalizing i v with
  | zero => rfl
  | succ count ih => simp [forLoop, ih, hbody]

/-- Loop invariant of a loop whose iteration `i` touches slot `i` only: slot `j`
ends as `body j` left it when `j` is in the index range, and untouched
otherwise. -/
theorem getElem?_forLoop {α : Type} (body : Nat → List α → List α) (g : Nat → α → α)
    (hbody : ∀ i j v, (body i v)[j]? = if j = i then (v[j]?).map (g i) else v[j]?)
    (i count j : Nat) (v : List α) :
    (forLoop body i count v)[j]? =
      if i ≤ j ∧ j < i + count then (v[j]?).map (g j) else v[j]? := by
  induction count generalizing i v with
  | zero =>
    have : ¬ (i ≤ j ∧ j < i) := by omega
    simp [forLoop, this]
  | succ count ih =>
    rw [forLoop, ih, hbody]
    by_cases hji : j = i
    · subst hji
      have h1 : ¬ (j + 1 ≤ j ∧ j < j + 1 + count) := by omega
      have h2 : j ≤ j ∧ j < j + (count + 1) := by omega
      simp [h1, h2]
    · by_cases hr : i + 1 ≤ j ∧ j < i + 1 + count
      · have h2 : i ≤ j ∧ j < i + (count + 1) := by omega
        simp [hr, h2, hji]
      · have h2 : ¬ (i ≤ j ∧ j < i + (count + 1)) := by omega
        simp [hr, h2, hji]

theorem getElem?_copyLoop {α β : Type} (copy : α → β → β) (src : List α) (dst : List β)
    (j : Nat) :
    (copyLoop copy src dst)[j]? =
      match src[j]? with
      | some s => (dst[j]?).map (copy s)
      | none => dst[j]? := by
  unfold copyLoop
  rw [getElem?_forLoop _ (fun i => match src[i]? with
    | some s => copy s
    | none => id)]
  · by_cases hj : j < src.length
    · have h2 : 0 ≤ j ∧ j < 0 + src.length := by omega
      rw [if_pos h2]
      simp [List.getElem?_eq_getElem hj]
    · have h2 : ¬ (0 ≤ j ∧ j < 0 + src.length) := by omega
      have h3 : src[j]? = none := List.getElem?_eq_none (by omega)
      simp [h2, h3]
  · intro i k v
    cases hs : src[i]? with
    | some s => simp [getElem?_assignAt]
    | none =>
      by_cases hk : k = i
      · simp [hk]
      · simp [hk]

/-- A copy loop whose body overwrites every field of the destination element
computes a map, provided the destination was resized to the source length. -/
theorem copyLoop_eq_map {α β : Type} (copy : α → β → β) (h : α → β)
    (hcopy : ∀ s d, copy s d = h s) (src : List α) (dst : List β)
    (hlen : dst.length = src.length) : copyLoop copy src dst = src.map h := by
  apply List.ext_getElem?
  intro j
  rw [getElem?_copyLoop]
  by_cases hj : j < src.length
  · have hd : j < dst.length := by omega
    simp [List.getElem?_eq_getElem hj, List.getElem?_eq_getElem hd, hcopy]
  · have h3 : src[j]? = none := List.getElem?_eq_none (by omega)
    have h4 : dst[j]? = none := List.getElem?_eq_none (by omega)
    simp [h3, h4]

/-! ## Lemmas on the codec -/

theorem update_three {R : Type} (f g : Fin 3 → R) :
    Function.update (Function.update (Function.update f 0 (g 0)) 1 (g 1)) 2 (g 2) = g := by
  funext k
  fin_cases k <;> simp [Function.update]

theorem update_six {R : Type} (f g : Fin 6 → R) :
    Function.update (Function.update (Function.update (Function.update (Function.update
      (Function.update f 0 (g 0)) 1 (g 1)) 2 (g 2)) 3 (g 3)) 4 (g 4)) 5 (g 5) = g := by
  funext k
  fin_cases k <;> simp [Function.update]

theorem encodeVertex_eq {R : Type} (v : VertexData R) (d : cg_mrslam.Vertex R) :
    encodeVertex v d = v.toWire := by
  simp [encodeVertex, VertexData.toWire, update_three]

theorem encodeEdge_eq {R : Type} (e : EdgeData R) (d : cg_mrslam.Edge R) :
    encodeEdge e d = e.toWire := by
  simp [encodeEdge, EdgeData.toWire, update_three, update_six]

theorem decodeVertex_eq {R : Type} (v : cg_mrslam.Vertex R) (d : VertexData R) :
    decodeVertex v d = v.toData := by
  simp [decodeVertex, cg_mrslam.Vertex.toData, update_three]

theorem decodeEdge_eq {R : Type} (e : cg_mrslam.Edge R) (d : EdgeData R) :
    decodeEdge e d = e.toData := by
  simp [decodeEdge, cg_mrslam.Edge.toData, update_three, update_six]

theorem createComboMsg_eq {R C : Type} [Zero R] (now : Time) (cmsg : ComboMessage R)
    (dslamMsg : cg_mrslam.SLAM R C) :
    createComboMsg now cmsg dslamMsg =
      { header := { stamp := now, frame_id := dslamMsg.header.frame_id }
        robotId := cmsg.robotId
        type := cmsg.type
        laser := { nodeId := cmsg.nodeId, readings := cmsg.readings, minAngle := cmsg.minangle,
                   angleInc := cmsg.angleincrement, maxRange := cmsg.maxrange,
                   accuracy := cmsg.accuracy }
        vertices := cmsg.vertexVector.map VertexData.toWire
        edges := dslamMsg.edges
        closures := dslamMsg.closures } := by
  simp only [createComboMsg]
  rw [copyLoop_eq_map encodeVertex VertexData.toWire encodeVertex_eq _ _ (resize_length _ _ _)]

theorem createCondensedGraphMsg_eq {R C : Type} [Zero R] (now : Time)
    (gmsg : CondensedGraphMessage R C) (dslamMsg : cg_mrslam.SLAM R C) :
    createCondensedGraphMsg now gmsg dslamMsg =
      { header := { stamp := now, frame_id := dslamMsg.header.frame_id }
        robotId := gmsg.robotId
        type := gmsg.type
        laser := dslamMsg.laser
        vertices := dslamMsg.vertices
        edges := gmsg.edgeVector.map EdgeData.toWire
        closures := gmsg.closures } := by
  simp only [createCondensedGraphMsg]
  rw [copyLoop_eq_map encodeEdge EdgeData.toWire encodeEdge_eq _ _ (resize_length _ _ _)]

/-- The call `createRobotMsg` on a pointer with a live object behind it, in
closed form. -/
theorem createRobotMsg_eq {R C : Type} [Zero R] (self : RosHandler R C)
    (slamMsg : cg_mrslam.SLAM R C) (a : Nat) (target : RobotMessage R C) :
    self.createRobotMsg slamMsg (RobotMessagePtr.addr a) (some target) =
      if self.msgEmpty = true then
        some { robotMsg := RobotMessagePtr.nullptr, pointee := some target, leaked := none }
      else if slamMsg.type = 7 then
        some { robotMsg := RobotMessagePtr.addr a
               pointee := some (RobotMessage.assignBase target (RobotMessage.other slamMsg.robotId 7))
               leaked := some (RobotMessage.condensedGraph
                 { robotId := slamMsg.robotId
                   type := 7
                   edgeVector := slamMsg.edges.map cg_mrslam.Edge.toData
                   closures := slamMsg.closures }) }
      else if slamMsg.type = 4 then
        some { robotMsg := RobotMessagePtr.addr a
               pointee := some (RobotMessage.assignBase target (RobotMessage.other slamMsg.robotId 4))
               leaked := some (RobotMessage.combo
                 { robotId := slamMsg.robotId
                   type := 4
                   nodeId := slamMsg.laser.nodeId
                   readings := slamMsg.laser.readings
                   minangle := slamMsg.laser.minAngle
                   angleincrement := slamMsg.laser.angleInc
                   maxrange := slamMsg.laser.maxRange
                   accuracy := slamMsg.laser.accuracy
                   vertexVector := slamMsg.vertices.map cg_mrslam.Vertex.toData }) }
      else some { robotMsg := RobotMessagePtr.nullptr, pointee := some target, leaked := none } := by
  unfold RosHandler.createRobotMsg
  cases hE : self.msgEmpty
  · by_cases h7 : slamMsg.type = 7
    · simp only [h7]
      cases target <;>
        simp [CondensedGraphMessage.new, CondensedGraphMessage.kindTag, RobotMessage.assignBase,
          RobotMessage.robotId, RobotMessage.type,
          copyLoop_eq_map decodeEdge cg_mrslam.Edge.toData decodeEdge_eq _ _ (resize_length _ _ _)]
    · by_cases h4 : slamMsg.type = 4
      · simp only [h4]
        cases target <;>
          simp [ComboMessage.new, ComboMessage.kindTag, RobotMessage.assignBase,
            RobotMessage.robotId, RobotMessage.type,
            copyLoop_eq_map decodeVertex cg_mrslam.Vertex.toData decodeVertex_eq _ _
              (resize_length _ _ _)]
      · simp [h7, h4]
  · simp

/-- The call `createRobotMsg` on a pointer without an object behind it: defined
only on the paths that do not touch the pointer. -/
theorem createRobotMsg_no_pointee {R C : Type} [Zero R] (self : RosHandler R C)
    (slamMsg : cg_mrslam.SLAM R C) (robotMsg : RobotMessagePtr) :
    self.createRobotMsg slamMsg robotMsg none =
      if self.msgEmpty = false ∧ (slamMsg.type = 7 ∨ slamMsg.type = 4) then none
      else some { robotMsg := RobotMessagePtr.nullptr, pointee := none, leaked := none } := by
  unfold RosHandler.createRobotMsg
  cases hE : self.msgEmpty
  · by_cases h7 : slamMsg.type = 7
    · cases robotMsg <;> simp [h7]
    · by_cases h4 : slamMsg.type = 4
      · cases robotMsg <;> simp [h4]
      · simp [h7, h4]
  · simp

theorem toData_toWire_vertex {R : Type} (v : VertexData R) : v.toWire.toData = v := rfl

theorem toData_toWire_edge {R : Type} (e : EdgeData R) : e.toWire.toData = e := rfl

/-! ## Lemmas on strings and topology -/

theorem take_takeWhile_length {α : Type} (p : α → Bool) (l : List α) :
    l.take (l.takeWhile p).length = l.takeWhile p := by
  induction l with
  | nil => rfl
  | cons x xs ih =>
    by_cases hx : p x = true
    · simp [List.takeWhile_cons, hx, ih]
    · simp [List.takeWhile_cons, hx]

/-- Searching for the one-character pattern "_" stops at the first underscore. -/
theorem findFrom_underscore (l : List Char) (pos : Nat) :
    findFrom ['_'] l pos =
      if '_' ∈ l then some (pos + (l.takeWhile (fun c => c != '_')).length) else none := by
  induction l generalizing pos with
  | nil => simp [findFrom]
  | cons c cs ih =>
    by_cases hc : c = '_'
    · subst hc
      simp [findFrom, List.isPrefixOf]
    · have hc2 : ¬ ('_' = c) := fun h => hc h.symm
      simp only [findFrom, List.isPrefixOf, List.mem_cons, hc2, false_or]
      simp [hc, ih, List.takeWhile_cons]
      split_ifs
      · simp
        omega
      · rfl

theorem rootNamespace_data (fullns : String) :
    (rootNamespace fullns).data = fullns.data.takeWhile (fun c => c != '_') := by
  have hpat : ("_" : String).data = ['_'] := rfl
  simp only [rootNamespace, find, hpat, findFrom_underscore]
  by_cases h : '_' ∈ fullns.data
  · simp [h, substr0, take_takeWhile_length]
  · simp only [h, if_false, substr0]
    symm
    rw [List.takeWhile_eq_self_iff]
    intro c hc
    have : c ≠ '_' := fun hcu => h (hcu ▸ hc)
    simpa using this

theorem filterMap_ite_eq_map_filter {α β : Type} (p : α → Prop) [DecidablePred p] (f : α → β)
    (l : List α) :
    l.filterMap (fun a => if p a then some (f a) else none)
      = (l.filter (fun a => decide (p a))).map f := by
  induction l with
  | nil => rfl
  | cons x xs ih =>
    by_cases hx : p x
    · simp [List.filterMap_cons, hx, ih]
    · simp [List.filterMap_cons, hx, ih]

/-- The peer slots after `run`, in closed form. -/
theorem run_subRobotMsg {R C : Type} (self : RosHandler R C)
    (hinit : self.subRobotMsg = List.replicate self.nRobots none) :
    self.run.subRobotMsg = (List.range self.nRobots).map (fun (r : Nat) =>
      if (r : Int) ≠ self.idRobot then
        some (Subscriber.mk (topicName self.rootns r "/sent_msgs") 10 (Callback.robotCallback r))
      else none) := by
  have hrun : self.run.subRobotMsg = forLoop (fun (r : Nat) (sub : List (Option Subscriber)) =>
      if (r : Int) ≠ self.idRobot then
        assignAt (fun _ => some (Subscriber.mk (topicName self.rootns r "/sent_msgs") 10
          (Callback.robotCallback r))) r sub
      else sub) 0 self.nRobots self.subRobotMsg := by
    simp only [RosHandler.run]
    split_ifs <;> rfl
  rw [hrun, hinit]
  apply List.ext_getElem?
  intro j
  rw [getElem?_forLoop _ (fun (r : Nat) => if (r : Int) ≠ self.idRobot then
      (fun _ => some (Subscriber.mk (topicName self.rootns r "/sent_msgs") 10
        (Callback.robotCallback r))) else id)]
  · by_cases hj : j < self.nRobots
    · have h2 : 0 ≤ j ∧ j < 0 + self.nRobots := by omega
      rw [if_pos h2]
      by_cases hid : (j : Int) = self.idRobot
      · simp [hj, hid, List.getElem?_range]
      · simp [hj, hid, List.getElem?_range]
    · have h2 : ¬ (0 ≤ j ∧ j < 0 + self.nRobots) := by omega
      rw [if_neg h2]
      rw [List.getElem?_eq_none (by simpa using Nat.le_of_not_lt hj),
        List.getElem?_eq_none (by simpa using Nat.le_of_not_lt hj)]
  · intro i k v
    by_cases hid : (i : Int) = self.idRobot
    · by_cases hk : k = i
      · simp [hid, hk]
      · simp [hid, hk]
    · simp [hid, getElem?_assignAt]

theorem split_at_first_underscore (l : List Char) (h : '_' ∈ l) :
    ∃ rest, l = l.takeWhile (fun c => c != '_') ++ '_' :: rest := by
  induction l with
  | nil => simp at h
  | cons c cs ih =>
    by_cases hc : c = '_'
    · subst hc
      exact ⟨cs, by simp [List.takeWhile_cons]⟩
    · have hmem : '_' ∈ cs := by
        rcases List.mem_cons.mp h with h1 | h1
        · exact absurd h1.symm hc
        · exact h1
      obtain ⟨rest, hrest⟩ := ih hmem
      refine ⟨rest, ?_⟩
      simp only [List.takeWhile_cons, bne_iff_ne, ne_eq, hc, not_false_eq_true, decide_True,
        if_true, List.cons_append]
      exact congrArg (List.cons c) hrest

/-! ## Lemmas on event traces -/

theorem pingCallback_getD_msgEmpty {R C : Type} (self : RosHandler R C) (msg : cg_mrslam.Ping)
    (now : Time) : ((self.pingCallback msg now).getD self).msgEmpty = self.msgEmpty := by
  unfold RosHandler.pingCallback
  simp only
  split_ifs <;> rfl

theorem pingCallback_getD_robotMsg {R C : Type} (self : RosHandler R C) (msg : cg_mrslam.Ping)
    (now : Time) : ((self.pingCallback msg now).getD self).robotMsg = self.robotMsg := by
  unfold RosHandler.pingCallback
  simp only
  split_ifs <;> rfl

/-- The flag `_msgEmpty` is set exactly as long as no peer message was
delivered, from whichever peer. -/
theorem deliverAll_msgEmpty {R C : Type} (getYaw : Quaternion R → R) (self : RosHandler R C)
    (evs : List (Event R C)) :
    (self.deliverAll getYaw evs).msgEmpty = (self.msgEmpty && !(evs.any Event.isRobot)) := by
  unfold RosHandler.deliverAll
  induction evs generalizing self with
  | nil => simp
  | cons ev evs ih =>
    rw [List.foldl_cons, ih]
    cases ev with
    | ping msg now => simp [RosHandler.deliver, pingCallback_getD_msgEmpty, Event.isRobot]
    | groundTruth msg slot =>
      simp [RosHandler.deliver, RosHandler.groundTruthCallback, Event.isRobot]
    | odom msg => simp [RosHandler.deliver, RosHandler.odomCallback, Event.isRobot]
    | scan msg => simp [RosHandler.deliver, RosHandler.scanCallback, Event.isRobot]
    | robot msg slot => simp [RosHandler.deliver, RosHandler.robotCallback, Event.isRobot]

/-- A slot keeps its content as long as no peer message is delivered to it. -/
theorem deliverAll_slot_untouched {R C : Type} (getYaw : Quaternion R → R)
    (self : RosHandler R C) (evs : List (Event R C)) (r : Nat)
    (hevs : ∀ ev ∈ evs, Event.isRobotAt r ev = false) :
    (self.deliverAll getYaw evs).robotMsg[r]? = self.robotMsg[r]? := by
  unfold RosHandler.deliverAll
  induction evs generalizing self with
  | nil => rfl
  | cons ev evs ih =>
    rw [List.foldl_cons, ih _ (fun e he => hevs e (List.mem_cons_of_mem _ he))]
    have hev := hevs ev (List.mem_cons_self _ _)
    cases ev with
    | ping msg now => simp [RosHandler.deliver, pingCallback_getD_robotMsg]
    | groundTruth msg slot => simp [RosHandler.deliver, RosHandler.groundTruthCallback]
    | odom msg => simp [RosHandler.deliver, RosHandler.odomCallback]
    | scan msg => simp [RosHandler.deliver, RosHandler.scanCallback]
    | robot msg slot =>
      have hne : r ≠ slot := by
        intro h
        simp [Event.isRobotAt, h] at hev
      simp [RosHandler.deliver, RosHandler.robotCallback, getElem?_assignAt, hne]

/-- A peer without any message so far decodes to nothing, also after messages
of other peers: its slot still holds the default-constructed wire message,
whose tag 0 is neither 4 nor 7, so `createRobotMsg` allocates nothing, leaves
the object behind the pointer alone and ends with its own pointer at nullptr.
Had that pointer been handed back, the peer would read as not available. -/
theorem nothing_decoded_before_first_message {R C : Type} [Zero R] (getYaw : Quaternion R → R)
    (fullns : String) (idRobot : Int) (nRobots : Nat) (typeExperiment : TypeExperiment)
    (evs : List (Event R C)) (r : Nat) (robotMsg : RobotMessagePtr)
    (pointee : Option (RobotMessage R C)) (hr : r < nRobots)
    (hevs : ∀ ev ∈ evs, Event.isRobotAt r ev = false) :
    ((RosHandler.new fullns idRobot nRobots typeExperiment).deliverAll getYaw evs).robotMsg[r]?
        = some cg_mrslam.SLAM.zero
    ∧ ((RosHandler.new fullns idRobot nRobots typeExperiment).deliverAll getYaw
          evs).createRobotMsg cg_mrslam.SLAM.zero robotMsg pointee
        = some { robotMsg := RobotMessagePtr.nullptr, pointee := pointee, leaked := none } := by
  refine ⟨?_, ?_⟩
  · rw [deliverAll_slot_untouched getYaw _ evs r hevs]
    simp [RosHandler.new, hr]
  · unfold RosHandler.createRobotMsg
    simp [cg_mrslam.SLAM.zero]

/-- What `getRobotMsg` returns for a slot inside the array: nothing defined when
the decode goes through the uninitialised pointer, else the value the local
held on entry. -/
theorem getRobotMsg_eq {R C : Type} [Zero R] (self : RosHandler R C) (robot : Nat)
    (robotMsg : RobotMessagePtr) (slamMsg : cg_mrslam.SLAM R C)
    (hslot : self.robotMsg[robot]? = some slamMsg) :
    self.getRobotMsg (robot : Int) robotMsg =
      if self.msgEmpty = false ∧ (slamMsg.type = 7 ∨ slamMsg.type = 4) then none
      else some robotMsg := by
  simp only [RosHandler.getRobotMsg, Int.toNat_ofNat, hslot, createRobotMsg_no_pointee]
  by_cases h : self.msgEmpty = false ∧ (slamMsg.type = 7 ∨ slamMsg.type = 4)
  · simp [h]
  · simp [h]

/-- The object the decoder allocates for the wire message of a valid message
equals that message in every field; its address is dropped at return. -/
theorem leaked_object_roundtrip {R C : Type} [Zero R] (self : RosHandler R C) (now : Time)
    (dslamMsg : cg_mrslam.SLAM R C) (a : Nat) (target : RobotMessage R C) :
    (∀ cmsg : ComboMessage R,
      ({ self with msgEmpty := false }.createRobotMsg
          (createDSlamMsg now (RobotMessage.combo { cmsg with type := ComboMessage.kindTag })
            dslamMsg) (RobotMessagePtr.addr a) (some target)).map CreateRobotMsgResult.leaked
        = some (some (RobotMessage.combo { cmsg with type := ComboMessage.kindTag })))
    ∧ (∀ gmsg : CondensedGraphMessage R C,
      ({ self with msgEmpty := false }.createRobotMsg
          (createDSlamMsg now
            (RobotMessage.condensedGraph { gmsg with type := CondensedGraphMessage.kindTag })
            dslamMsg) (RobotMessagePtr.addr a) (some target)).map CreateRobotMsgResult.leaked
        = some (some (RobotMessage.condensedGraph
            { gmsg with type := CondensedGraphMessage.kindTag }))) := by
  refine ⟨fun cmsg => ?_, fun gmsg => ?_⟩
  · rw [createRobotMsg_eq]
    simp [createDSlamMsg, createComboMsg_eq, ComboMessage.kindTag, List.map_map,
      Function.comp_def, toData_toWire_vertex]
  · rw [createRobotMsg_eq]
    simp [createDSlamMsg, createCondensedGraphMsg_eq, CondensedGraphMessage.kindTag,
      List.map_map, Function.comp_def, toData_toWire_edge]

/-! ## Message codec: what a decode hands to its caller -/

/-- C1 on the code.  The valid ComboMessage sampleCombo is encoded and received
from peer 1.  Decoding its wire message into a ComboMessage object of the
caller changes only the robot id and kind tag of that object: node id,
readings, angles and vertices stay empty, so the caller does not hold a message
equal to sampleCombo.  The object that does equal sampleCombo is the one
allocated inside the call, whose address is dropped.  With a null pointer, and
through getRobotMsg (whose pointer is uninitialised), the decode has no defined
behaviour.  The same holds for the CondensedGraphMessage sampleGraph. -/
theorem createRobotMsg_hands_over_base_members_only :
    comboReceiver.msgEmpty = false
    ∧ comboReceiver.createRobotMsg sampleComboWire (RobotMessagePtr.addr 64)
        (some (RobotMessage.combo (ComboMessage.new 0)))
      = some { robotMsg := RobotMessagePtr.addr 64
               pointee := some (RobotMessage.combo
                 { robotId := 1, type := 4, nodeId := 0, readings := [], minangle := 0,
                   angleincrement := 0, maxrange := 0, accuracy := 0, vertexVector := [] })
               leaked := some (RobotMessage.combo sampleCombo) }
    ∧ (RobotMessage.combo
          { robotId := 1, type := 4, nodeId := 0, readings := [], minangle := 0,
            angleincrement := 0, maxrange := 0, accuracy := 0, vertexVector := [] }
        : RobotMessage Int Int) ≠ RobotMessage.combo sampleCombo
    ∧ comboReceiver.createRobotMsg sampleComboWire RobotMessagePtr.nullptr none = none
    ∧ comboReceiver.getRobotMsg 1 (RobotMessagePtr.addr 4096) = none
    ∧ graphReceiver.createRobotMsg sampleGraphWire (RobotMessagePtr.addr 64)
        (some (RobotMessage.condensedGraph (CondensedGraphMessage.new 0)))
      = some { robotMsg := RobotMessagePtr.addr 64
               pointee := some (RobotMessage.condensedGraph
                 { robotId := 1, type := 7, edgeVector := [], closures := [] })
               leaked := some (RobotMessage.condensedGraph sampleGraph) }
    ∧ (RobotMessage.condensedGraph { robotId := 1, type := 7, edgeVector := [], closures := [] }
        : RobotMessage Int Int) ≠ RobotMessage.condensedGraph sampleGraph
    ∧ graphReceiver.createRobotMsg sampleGraphWire RobotMessagePtr.nullptr none = none
    ∧ graphReceiver.getRobotMsg 1 (RobotMessagePtr.addr 4096) = none := by
  have hcombo : sampleComboWire.type = 4 := rfl
  have hgraph : sampleGraphWire.type = 7 := rfl
  refine ⟨rfl, ?_, ?_, ?_, ?_, ?_, ?_, ?_, ?_⟩
  · rw [createRobotMsg_eq]
    simp [comboReceiver, RosHandler.robotCallback, sampleComboWire, publishedMsg, createDSlamMsg,
      createComboMsg_eq, sampleCombo, ComboMessage.kindTag, ComboMessage.new,
      RobotMessage.assignBase, RobotMessage.robotId, RobotMessage.type, VertexData.toWire,
      cg_mrslam.Vertex.toData]
  · simp [sampleCombo]
  · rw [createRobotMsg_no_pointee]
    simp [comboReceiver, RosHandler.robotCallback, hcombo]
  · exact (getRobotMsg_eq comboReceiver 1 _ sampleComboWire rfl).trans
      (by simp [comboReceiver, RosHandler.robotCallback, hcombo])
  · rw [createRobotMsg_eq]
    simp [graphReceiver, RosHandler.robotCallback, sampleGraphWire, publishedMsg, createDSlamMsg,
      createCondensedGraphMsg_eq, sampleGraph, CondensedGraphMessage.kindTag,
      CondensedGraphMessage.new, RobotMessage.assignBase, RobotMessage.robotId,
      RobotMessage.type, EdgeData.toWire, cg_mrslam.Edge.toData]
  · simp [sampleGraph]
  · rw [createRobotMsg_no_pointee]
    simp [graphReceiver, RosHandler.robotCallback, hgraph]
  · exact (getRobotMsg_eq graphReceiver 1 _ sampleGraphWire rfl).trans
      (by simp [graphReceiver, RosHandler.robotCallback, hgraph])

/-- C2 on the code.  With the flag cleared, a tag-7 wire message decoded into an
object of the caller (here a ComboMessage) leaves the caller with that same
ComboMessage object carrying robot id 2 and tag 7 and none of the decoded
members, not with a CondensedGraphMessage; a tag-4 wire message decoded into a
CondensedGraphMessage object likewise.  With a null pointer, and through
getRobotMsg, both decodes have no defined behaviour.  Only the unknown tag 9
behaves as claimed: nothing is allocated and the object of the caller is
untouched. -/
theorem createRobotMsg_tagged_decode_partial_or_undefined :
    (freshHandler.robotCallback tagSevenWire 1).createRobotMsg tagSevenWire
        (RobotMessagePtr.addr 64) (some (RobotMessage.combo (ComboMessage.new 0)))
      = some { robotMsg := RobotMessagePtr.addr 64
               pointee := some (RobotMessage.combo
                 { robotId := 2, type := 7, nodeId := 0, readings := [], minangle := 0,
                   angleincrement := 0, maxrange := 0, accuracy := 0, vertexVector := [] })
               leaked := some (RobotMessage.condensedGraph
                 { robotId := 2, type := 7, edgeVector := [], closures := [] }) }
    ∧ (freshHandler.robotCallback tagSevenWire 1).createRobotMsg tagSevenWire
        RobotMessagePtr.nullptr none = none
    ∧ (freshHandler.robotCallback tagSevenWire 1).getRobotMsg 1 (RobotMessagePtr.addr 4096) = none
    ∧ (freshHandler.robotCallback tagFourWire 1).createRobotMsg tagFourWire
        (RobotMessagePtr.addr 64)
        (some (RobotMessage.condensedGraph (CondensedGraphMessage.new 0)))
      = some { robotMsg := RobotMessagePtr.addr 64
               pointee := some (RobotMessage.condensedGraph
                 { robotId := 2, type := 4, edgeVector := [], closures := [] })
               leaked := some (RobotMessage.combo
                 { robotId := 2, type := 4, nodeId := 0, readings := [], minangle := 0,
                   angleincrement := 0, maxrange := 0, accuracy := 0, vertexVector := [] }) }
    ∧ (freshHandler.robotCallback tagFourWire 1).createRobotMsg tagFourWire
        RobotMessagePtr.nullptr none = none
    ∧ (freshHandler.robotCallback tagFourWire 1).getRobotMsg 1 (RobotMessagePtr.addr 4096) = none
    ∧ (freshHandler.robotCallback tagNineWire 1).createRobotMsg tagNineWire
        (RobotMessagePtr.addr 64) (some (RobotMessage.combo (ComboMessage.new 0)))
      = some { robotMsg := RobotMessagePtr.nullptr
               pointee := some (RobotMessage.combo (ComboMessage.new 0))
               leaked := none } := by
  decide

/-- C7 on the code.  Encoding keeps the edge count and puts information[k] of
edge i of the message at information[k] of wire edge i, for every message,
index i and position k; the edge of sampleGraph with information
[1,2,3,4,5,6] is sent with information [1,2,3,4,5,6].  Decoding that wire
message into a CondensedGraphMessage object of the caller leaves the caller
with no edge at all, hence with no information entry in any position; with a
null pointer, and through getRobotMsg, the decode has no defined behaviour. -/
theorem information_order_encode_only {R C : Type} [Zero R] (now : Time)
    (gmsg : CondensedGraphMessage R C) (dslamMsg : cg_mrslam.SLAM R C) (i : Nat) (k : Fin 6) :
    ((createDSlamMsg now (RobotMessage.condensedGraph gmsg) dslamMsg).edges.length
        = gmsg.edgeVector.length
      ∧ ((createDSlamMsg now (RobotMessage.condensedGraph gmsg) dslamMsg).edges[i]?).map
          (fun e => e.information k)
        = (gmsg.edgeVector[i]?).map (fun e => e.information k))
    ∧ sampleGraphWire.edges = [cg_mrslam.Edge.mk 3 4 ![10, 20, 30] ![1, 2, 3, 4, 5, 6]]
    ∧ (graphReceiver.createRobotMsg sampleGraphWire (RobotMessagePtr.addr 128)
        (some (RobotMessage.condensedGraph (CondensedGraphMessage.new 0)))).map
          CreateRobotMsgResult.pointee
      = some (some (RobotMessage.condensedGraph
          { robotId := 1, type := 7, edgeVector := [], closures := [] }))
    ∧ graphReceiver.createRobotMsg sampleGraphWire RobotMessagePtr.nullptr none = none
    ∧ graphReceiver.getRobotMsg 1 (RobotMessagePtr.addr 8192) = none := by
  have hgraph : sampleGraphWire.type = 7 := rfl
  refine ⟨⟨?_, ?_⟩, ?_, ?_, ?_, ?_⟩
  · simp [createDSlamMsg, createCondensedGraphMsg_eq]
  · simp [createDSlamMsg, createCondensedGraphMsg_eq, EdgeData.toWire]
    cases gmsg.edgeVector[i]? <;> rfl
  · simp [sampleGraphWire, publishedMsg, createDSlamMsg, createCondensedGraphMsg_eq,
      sampleGraph, EdgeData.toWire]
  · rw [createRobotMsg_eq]
    simp [graphReceiver, RosHandler.robotCallback, hgraph, CondensedGraphMessage.kindTag,
      CondensedGraphMessage.new, RobotMessage.assignBase, RobotMessage.robotId,
      RobotMessage.type, sampleGraphWire, publishedMsg, createDSlamMsg,
      createCondensedGraphMsg_eq, sampleGraph]
  · rw [createRobotMsg_no_pointee]
    simp [graphReceiver, RosHandler.robotCallback, hgraph]
  · exact (getRobotMsg_eq graphReceiver 1 _ sampleGraphWire rfl).trans
      (by simp [graphReceiver, RosHandler.robotCallback, hgraph])

/-! ## Topology and namespace -/

/-- C3 (topology).  On a handler whose peer slots are as the constructor left
them, run() opens exactly one peer subscription for each r with
0 <= r < nRobots and r != idRobot, on the topic rootns + "_" + r + "/sent_msgs",
bound to slot r, and none for r = idRobot; hence the set of peer topics is
exactly that family.  For idRobot = 2, nRobots = 5, rootns = "R" the topics are
"R_0/sent_msgs", "R_1/sent_msgs", "R_3/sent_msgs", "R_4/sent_msgs". -/
theorem run_peerTopics {R C : Type} (self : RosHandler R C)
    (hinit : self.subRobotMsg = List.replicate self.nRobots none) :
    self.run.peerTopics
        = ((List.range self.nRobots).filter (fun (r : Nat) => decide ((r : Int) ≠ self.idRobot))).map
            (fun (r : Nat) => self.rootns ++ "_" ++ toString r ++ "/sent_msgs")
    ∧ (∀ t : String, t ∈ self.run.peerTopics
        ↔ ∃ r : Nat, r < self.nRobots ∧ (r : Int) ≠ self.idRobot
            ∧ t = self.rootns ++ "_" ++ toString r ++ "/sent_msgs")
    ∧ (∀ r : Nat, r < self.nRobots →
        self.run.subRobotMsg[r]? = some (if (r : Int) = self.idRobot then none else
          some (Subscriber.mk (self.rootns ++ "_" ++ toString r ++ "/sent_msgs") 10
            (Callback.robotCallback r))))
    ∧ (self.idRobot = 2 → self.nRobots = 5 → self.rootns = "R" →
        self.run.peerTopics
          = ["R_0/sent_msgs", "R_1/sent_msgs", "R_3/sent_msgs", "R_4/sent_msgs"]) := by
  have hslots := run_subRobotMsg self hinit
  have htopics : self.run.peerTopics
      = ((List.range self.nRobots).filter
          (fun (r : Nat) => decide ((r : Int) ≠ self.idRobot))).map
            (fun (r : Nat) => self.rootns ++ "_" ++ toString r ++ "/sent_msgs") := by
    rw [RosHandler.peerTopics, hslots, List.filterMap_map,
      ← filterMap_ite_eq_map_filter (fun (r : Nat) => (r : Int) ≠ self.idRobot)]
    congr 1
    funext r
    by_cases hr : (r : Int) = self.idRobot
    · simp [hr]
    · simp [hr, topicName]
  refine ⟨htopics, ?_, ?_, ?_⟩
  · intro t
    rw [htopics]
    simp only [List.mem_map, List.mem_filter, List.mem_range, decide_eq_true_eq]
    constructor
    · rintro ⟨r, ⟨hr, hne⟩, rfl⟩
      exact ⟨r, hr, hne, rfl⟩
    · rintro ⟨r, hr, hne, rfl⟩
      exact ⟨r, ⟨hr, hne⟩, rfl⟩
  · intro r hr
    rw [hslots]
    by_cases hid : (r : Int) = self.idRobot
    · simp [hr, hid, List.getElem?_range]
    · simp [hr, hid, List.getElem?_range, topicName]
  · intro hid hn hroot
    rw [htopics, hid, hn, hroot]
    decide

/-- Witness of C3: the handler of robot 2 of 5 in namespace "R_2". -/
theorem run_peerTopics_witness :
    (RosHandler.new (R := Int) (C := Int) "R_2" 2 5 TypeExperiment.BAG).subRobotMsg
        = List.replicate 5 none
    ∧ (RosHandler.new (R := Int) (C := Int) "R_2" 2 5 TypeExperiment.BAG).run.peerTopics
        = ["R_0/sent_msgs", "R_1/sent_msgs", "R_3/sent_msgs", "R_4/sent_msgs"] :=
  ⟨rfl, (run_peerTopics (RosHandler.new (R := Int) (C := Int) "R_2" 2 5 TypeExperiment.BAG)
    rfl).2.2.2 rfl rfl (by decide)⟩

/-- C10 (root namespace).  The root namespace computed by the constructor is
the prefix of the namespace string that ends just before its first
underscore: it contains no underscore, the string is root + "_" + rest when it
contains an underscore, and the root is the whole string when it contains
none.  "/robot_0" gives "/robot", "/a_b_c" gives "/a", "/robot" gives
"/robot". -/
theorem rootNamespace_first_underscore (fullns : String) :
    (rootNamespace fullns).data = fullns.data.takeWhile (fun c => c != '_')
    ∧ (rootNamespace fullns).data <+: fullns.data
    ∧ '_' ∉ (rootNamespace fullns).data
    ∧ (if '_' ∈ fullns.data then
        ∃ rest : String, fullns = rootNamespace fullns ++ "_" ++ rest
       else rootNamespace fullns = fullns)
    ∧ (RosHandler.new (R := Int) (C := Int) fullns 0 1 TypeExperiment.BAG).rootns
        = rootNamespace fullns
    ∧ rootNamespace "/robot_0" = "/robot"
    ∧ rootNamespace "/a_b_c" = "/a"
    ∧ rootNamespace "/robot" = "/robot" := by
  have hdata := rootNamespace_data fullns
  refine ⟨hdata, ?_, ?_, ?_, rfl, by decide, by decide, by decide⟩
  · rw [hdata]
    exact List.takeWhile_prefix _
  · rw [hdata]
    intro hmem
    have := List.mem_takeWhile_imp hmem
    simp at this
  · split_ifs with h
    · obtain ⟨rest, hrest⟩ := split_at_first_underscore fullns.data h
      refine ⟨String.mk rest, ?_⟩
      apply String.ext
      have hpat : ("_" : String).data = ['_'] := rfl
      rw [String.data_append, String.data_append, hdata, hpat]
      simpa using hrest
    · apply String.ext
      rw [hdata, List.takeWhile_eq_self_iff]
      intro c hc
      have : c ≠ '_' := fun hcu => h (hcu ▸ hc)
      simpa using this

/-! ## Peer slots, liveness, start-up, snapshot -/

theorem getElem?_assignAt_const_self {α : Type} (x : α) (r : Nat) (v : List α)
    (hr : r < v.length) : (assignAt (fun _ => x) r v)[r]? = some x := by
  simp [getElem?_assignAt, List.getElem?_eq_getElem hr]

theorem getElem?_assignAt_of_ne {α : Type} (f : α → α) (r s : Nat) (v : List α) (hs : s ≠ r) :
    (assignAt f r v)[s]? = v[s]? := by
  simp [getElem?_assignAt, hs]

/-- C5 as stated fails: on the fresh handler of three robots a message received
from peer 1 leaves the slot of peer 2 alone but changes the not-yet-received
flag that guards it: a tag-7 message decoded into an object of the caller is
held back before and goes through after. -/
theorem robotCallback_changes_flag_of_other_peer :
    freshHandler.unseen 2 = true
    ∧ (freshHandler.robotCallback cg_mrslam.SLAM.zero 1).unseen 2 = false
    ∧ (freshHandler.robotCallback cg_mrslam.SLAM.zero 1).unseen 2 ≠ freshHandler.unseen 2
    ∧ (freshHandler.robotCallback cg_mrslam.SLAM.zero 1).robotMsg[2]? = freshHandler.robotMsg[2]?
    ∧ (freshHandler.createRobotMsg tagSevenWire (RobotMessagePtr.addr 64)
        (some (RobotMessage.other 0 0))).map CreateRobotMsgResult.pointee
      = some (some (RobotMessage.other 0 0))
    ∧ ((freshHandler.robotCallback cg_mrslam.SLAM.zero 1).createRobotMsg tagSevenWire
        (RobotMessagePtr.addr 64) (some (RobotMessage.other 0 0))).map CreateRobotMsgResult.pointee
      = some (some (RobotMessage.other 2 7)) := by
  decide

/-- C5 amended (last write wins, one shared flag).  After robotCallback bound to
the slot of peer r receives w, the slot of r holds w whatever it held before,
the single flag _msgEmpty is cleared (so the flag reads cleared for every
peer), and the slot of every other peer is unchanged. -/
theorem robotCallback_last_write_wins {R C : Type} (self : RosHandler R C)
    (w : cg_mrslam.SLAM R C) (r : Nat) (hr : r < self.robotMsg.length) :
    (self.robotCallback w r).robotMsg[r]? = some w
    ∧ (self.robotCallback w r).msgEmpty = false
    ∧ (∀ s : Nat, (self.robotCallback w r).unseen s = false)
    ∧ (∀ s : Nat, s ≠ r → (self.robotCallback w r).robotMsg[s]? = self.robotMsg[s]?)
    ∧ (self.robotCallback w r).robotMsg.length = self.robotMsg.length := by
  refine ⟨?_, rfl, fun _ => rfl, ?_, ?_⟩
  · exact getElem?_assignAt_const_self w r self.robotMsg hr
  · intro s hs
    exact getElem?_assignAt_of_ne _ r s self.robotMsg hs
  · exact assignAt_length _ _ _

/-- Witness of the amended C5: peer 1 of the fresh three-robot handler. -/
theorem robotCallback_last_write_wins_witness :
    1 < freshHandler.robotMsg.length
    ∧ (freshHandler.robotCallback { cg_mrslam.SLAM.zero with type := 7 } 1).robotMsg[1]?
        = some { cg_mrslam.SLAM.zero with type := 7 } :=
  ⟨by decide, (robotCallback_last_write_wins freshHandler
    { cg_mrslam.SLAM.zero with type := 7 } 1 (by decide)).1⟩

/-- C6 (liveness).  A ping whose robotFrom is r, handled at clock reading t1,
sets the last-seen time of r to t1 and leaves the last-seen time of every other
peer unchanged; a second ping from r at t2 sets it to t2, so timeSincePing(r)
measured at t2 is 0, whereas measured against the first ping it would have been
t2 - t1. -/
theorem pingCallback_lastSeen {R C : Type} (self : RosHandler R C) (msg1 msg2 : cg_mrslam.Ping)
    (t1 t2 : Time) (r : Nat) (h1 : msg1.robotFrom = (r : Int)) (h2 : msg2.robotFrom = (r : Int))
    (hr : r < self.timeLastPing.length) :
    ∃ self1 self2 : RosHandler R C,
      self.pingCallback msg1 t1 = some self1
      ∧ self1.timeLastPing[r]? = some t1
      ∧ (∀ s : Nat, s ≠ r → self1.timeLastPing[s]? = self.timeLastPing[s]?)
      ∧ self1.timeSincePing r t2 = some (t2.toNSec - t1.toNSec)
      ∧ self1.pingCallback msg2 t2 = some self2
      ∧ self2.timeLastPing[r]? = some t2
      ∧ (∀ s : Nat, s ≠ r → self2.timeLastPing[s]? = self.timeLastPing[s]?)
      ∧ self2.timeSincePing r t2 = some 0
      ∧ (t1.toNSec < t2.toNSec → self2.timeSincePing r t2 ≠ some (t2.toNSec - t1.toNSec)) := by
  have hlen1 : r < (assignAt (fun _ => t1) r self.timeLastPing).length := by
    rw [assignAt_length]
    exact hr
  refine ⟨{ self with timeLastPing := assignAt (fun _ => t1) r self.timeLastPing },
    { self with timeLastPing :=
        assignAt (fun _ => t2) r (assignAt (fun _ => t1) r self.timeLastPing) },
    ?_, ?_, ?_, ?_, ?_, ?_, ?_, ?_, ?_⟩
  · simp [RosHandler.pingCallback, h1, hr]
  · exact getElem?_assignAt_const_self t1 r _ hr
  · intro s hs
    exact getElem?_assignAt_of_ne _ r s _ hs
  · simp [RosHandler.timeSincePing, getElem?_assignAt_const_self t1 r _ hr]
  · simp [RosHandler.pingCallback, h2, hlen1]
  · exact getElem?_assignAt_const_self t2 r _ hlen1
  · intro s hs
    rw [getElem?_assignAt_of_ne _ r s _ hs, getElem?_assignAt_of_ne _ r s _ hs]
  · simp [RosHandler.timeSincePing, getElem?_assignAt_const_self t2 r _ hlen1]
  · intro hlt
    simp only [RosHandler.timeSincePing, getElem?_assignAt_const_self t2 r _ hlen1,
      Option.map_some', sub_self, ne_eq, Option.some.injEq]
    omega

/-- Witness of C6: pings from robot 3 at 10 s and at 20 s on a handler of five
robots. -/
theorem pingCallback_lastSeen_witness :
    3 < (RosHandler.new (R := Int) (C := Int) "/robot_0" 0 5 TypeExperiment.BAG).timeLastPing.length
    ∧ ∃ self1 self2 : RosHandler Int Int,
      (RosHandler.new "/robot_0" 0 5 TypeExperiment.BAG).pingCallback
          { header := { stamp := Time.mk 10 0, frame_id := "" }, robotFrom := 3, robotTo := 0 }
          (Time.mk 10 0) = some self1
      ∧ self1.pingCallback
          { header := { stamp := Time.mk 20 0, frame_id := "" }, robotFrom := 3, robotTo := 0 }
          (Time.mk 20 0) = some self2
      ∧ self2.timeLastPing[3]? = some (Time.mk 20 0)
      ∧ self2.timeSincePing 3 (Time.mk 20 0) = some 0 := by
  refine ⟨by decide, ?_⟩
  obtain ⟨self1, self2, ha, _, _, _, hb, hc, _, hd, _⟩ :=
    pingCallback_lastSeen (RosHandler.new (R := Int) (C := Int) "/robot_0" 0 5 TypeExperiment.BAG)
      { header := { stamp := Time.mk 10 0, frame_id := "" }, robotFrom := 3, robotTo := 0 }
      { header := { stamp := Time.mk 20 0, frame_id := "" }, robotFrom := 3, robotTo := 0 }
      (Time.mk 10 0) (Time.mk 20 0) 3 rfl rfl (by decide)
  exact ⟨self1, self2, ha, hb, hc, hd⟩

/-- The sensor frame survives the ground-truth stage of `init`, so it is decided
by the laser stage alone. -/
theorem init_laser_stage {R C : Type} (getYaw : Quaternion R → R) (self : RosHandler R C)
    (inp : InitInputs R) (hlaser : self.useLaser = true) :
    (self.init getYaw inp).lookups = 1
    ∧ (self.init getYaw inp).handler.trobotlaser
        = (match inp.lookup 0 with
          | some laserTransform => SE2.mk laserTransform.origin.x laserTransform.origin.y
              (getYaw laserTransform.rotation)
          | none => self.trobotlaser)
    ∧ (self.init getYaw inp).sleeps = (match inp.lookup 0 with
          | some _ => 0
          | none => 1) := by
  unfold RosHandler.init
  cases hl : inp.lookup 0 <;> cases ho : self.useOdom <;> simp [hlaser, hl] <;>
    split_ifs <;> simp

/-- C8 as stated fails: with laser use enabled and a first lookup that throws,
init() returns after that single lookup with the sensor frame still at the
constructor default (0, 0, 0), although the next lookup would have succeeded
with a different transform. -/
theorem init_completes_after_failed_lookup :
    laserHandler.useLaser = true
    ∧ failThenSucceed.lookup 0 = none
    ∧ failThenSucceed.lookup 1 = some sampleTransform
    ∧ (laserHandler.init sampleYaw failThenSucceed).lookups = 1
    ∧ (laserHandler.init sampleYaw failThenSucceed).handler.trobotlaser = SE2.mk 0 0 0
    ∧ (laserHandler.init sampleYaw failThenSucceed).handler.trobotlaser
        ≠ SE2.mk sampleTransform.origin.x sampleTransform.origin.y
            (sampleYaw sampleTransform.rotation) := by
  decide

/-- C8 amended (single attempt).  With laser use enabled init() makes exactly
one transform lookup and completes.  When the lookup succeeds the stored
sensor frame is (origin x, origin y, yaw of the rotation) of its result and
init() does not sleep; when it throws, init() sleeps once, makes no further
lookup, and the stored sensor frame is what it was before the call, which on a
handler fresh from the constructor is (0, 0, 0). -/
theorem init_single_lookup {R C : Type} [Zero R] (getYaw : Quaternion R → R)
    (self : RosHandler R C) (inp : InitInputs R) (hlaser : self.useLaser = true) :
    (self.init getYaw inp).lookups = 1
    ∧ (∀ laserTransform : StampedTransform R, inp.lookup 0 = some laserTransform →
        (self.init getYaw inp).handler.trobotlaser
            = SE2.mk laserTransform.origin.x laserTransform.origin.y
                (getYaw laserTransform.rotation)
          ∧ (self.init getYaw inp).sleeps = 0)
    ∧ (inp.lookup 0 = none →
        (self.init getYaw inp).handler.trobotlaser = self.trobotlaser
          ∧ (self.init getYaw inp).sleeps = 1)
    ∧ (∀ (fullns : String) (idRobot : Int) (nRobots : Nat) (typeExperiment : TypeExperiment),
        (RosHandler.new fullns idRobot nRobots typeExperiment : RosHandler R C).trobotlaser
          = SE2.mk 0 0 0) := by
  obtain ⟨h1, h2, h3⟩ := init_laser_stage getYaw self inp hlaser
  refine ⟨h1, ?_, ?_, fun _ _ _ _ => rfl⟩
  · intro laserTransform hl
    rw [h2, h3, hl]
    exact ⟨rfl, rfl⟩
  · intro hl
    rw [h2, h3, hl]
    exact ⟨rfl, rfl⟩

/-- Witness of the amended C8: a lookup that succeeds at once. -/
theorem init_single_lookup_witness :
    laserHandler.useLaser = true
    ∧ (laserHandler.init sampleYaw succeedAtOnce).lookups = 1
    ∧ (laserHandler.init sampleYaw succeedAtOnce).handler.trobotlaser = SE2.mk 1 2 3 :=
  ⟨rfl, (init_single_lookup sampleYaw laserHandler succeedAtOnce rfl).1,
    ((init_single_lookup sampleYaw laserHandler succeedAtOnce rfl).2.1 sampleTransform rfl).1⟩

/-- C9 (snapshot).  getLaser is a function of the latest scan, the latest
odometry and the stored sensor frame alone.  Its range array is the scan range
array (same length n, same entry at every index), its laser parameters carry
first argument 0, reading count n and the min angle, angle increment and max
range of the scan, its sensor-frame offset is the stored sensor frame, and its
robot pose is getOdom of the latest odometry: (x, y, yaw of the orientation). -/
theorem getLaser_snapshot {R C : Type} [DivisionRing R] (getYaw : Quaternion R → R) :
    (∃ build : sensor_msgs.LaserScan R → nav_msgs.Odometry R → SE2 R → RobotLaser R,
      ∀ self : RosHandler R C,
        self.getLaser getYaw = build self.laserscan self.odom self.trobotlaser)
    ∧ (∀ self : RosHandler R C,
        (self.getLaser getYaw).ranges = self.laserscan.ranges
        ∧ (self.getLaser getYaw).ranges.length = self.laserscan.ranges.length
        ∧ (∀ i : Nat, (self.getLaser getYaw).ranges[i]? = self.laserscan.ranges[i]?)
        ∧ (self.getLaser getYaw).laserParams.type = 0
        ∧ (self.getLaser getYaw).laserParams.beams = self.laserscan.ranges.length
        ∧ (self.getLaser getYaw).laserParams.firstBeamAngle = self.laserscan.angle_min
        ∧ (self.getLaser getYaw).laserParams.angularStep = self.laserscan.angle_increment
        ∧ (self.getLaser getYaw).laserParams.maxRange = self.laserscan.range_max
        ∧ (self.getLaser getYaw).laserParams.laserPose = self.trobotlaser
        ∧ (self.getLaser getYaw).odomPose = self.getOdom getYaw
        ∧ self.getOdom getYaw
            = SE2.mk self.odom.position.x self.odom.position.y (getYaw self.odom.orientation)) := by
  have hranges : ∀ self : RosHandler R C,
      (self.getLaser getYaw).ranges = self.laserscan.ranges := by
    intro self
    simp only [RosHandler.getLaser]
    rw [copyLoop_eq_map (fun r _ => r) id (fun _ _ => rfl) _ _ (by simp)]
    simp
  refine ⟨⟨fun scan odom frame =>
    (RosHandler.getLaser getYaw
      ({ (RosHandler.new "" 0 0 TypeExperiment.BAG : RosHandler R C) with
        laserscan := scan, odom := odom, trobotlaser := frame })), fun self => rfl⟩, ?_⟩
  intro self
  refine ⟨hranges self, ?_, ?_, rfl, rfl, rfl, rfl, rfl, rfl, rfl, rfl⟩
  · rw [hranges]
  · intro i
    rw [hranges]

/-- C4 on the code.  On the fresh handler (no message received from anyone)
createRobotMsg sets its own copy of the pointer to nullptr, yet getRobotMsg(1)
hands back the value its uninitialised local held, here the address 4096.
The same happens once peer 2 has sent a message and when the stored message
of peer 1 has the unknown tag 9. -/
theorem getRobotMsg_returns_uninitialised_pointer :
    freshHandler.msgEmpty = true
    ∧ freshHandler.createRobotMsg cg_mrslam.SLAM.zero (RobotMessagePtr.addr 4096) none
        = some { robotMsg := RobotMessagePtr.nullptr, pointee := none, leaked := none }
    ∧ freshHandler.getRobotMsg 1 (RobotMessagePtr.addr 4096) = some (RobotMessagePtr.addr 4096)
    ∧ (freshHandler.robotCallback { cg_mrslam.SLAM.zero with type := 7 } 2).getRobotMsg 1
        (RobotMessagePtr.addr 4096) = some (RobotMessagePtr.addr 4096)
    ∧ (freshHandler.robotCallback { cg_mrslam.SLAM.zero with type := 9 } 1).getRobotMsg 1
        (RobotMessagePtr.addr 4096) = some (RobotMessagePtr.addr 4096) := by
  decide

end CgMrslam
